import Mathlib

/-!
Verification of `scripts/ci/configure-aws-cli.py`: a CI helper that writes
AWS CLI `config` and `credentials` files under `<home>/.aws` from the
environment variables `R2_S3_ENDPOINT`, `R2_ACCESS_KEY_ID` and
`R2_SECRET_ACCESS_KEY`.

The script is embedded shallowly: the environment is a partial map from
variable names to string values, the relevant filesystem state is the
existence of the `<home>/.aws` directory plus the optional contents of the
two target files, and each Python function becomes a Lean function.
`exit(2)` after a `print` becomes an `Except` error carrying the exit code
and the printed line.  Python string helpers the script relies on
(`textwrap.dedent`, `str.format`) are modelled as executable functions on
character lists.
-/

namespace ConfigureAwsCli

/-- A Python character is a whitespace character for `textwrap.dedent`
purposes when it is a space or a tab (the regexes in `textwrap` use
`[ \t]`). -/
def isWS (c : Char) : Bool := c == ' ' || c == '\t'

/-- Split a character list at newline characters, keeping empty segments,
as Python's `str.split("\n")` does. -/
def splitLines : List Char → List (List Char)
  | [] => [[]]
  | '\n' :: rest => [] :: splitLines rest
  | c :: rest =>
    match splitLines rest with
    | [] => [[c]]
    | l :: ls => (c :: l) :: ls

/-- Join lines back with newline separators: inverse of `splitLines`. -/
def joinLines : List (List Char) → List Char
  | [] => []
  | [l] => l
  | l :: ls => l ++ '\n' :: joinLines ls

/-- Longest common prefix of two character lists. -/
def lcpL : List Char → List Char → List Char
  | a :: as, b :: bs => if a = b then a :: lcpL as bs else []
  | _, _ => []

/-- Whether the first list is an initial segment of the second. -/
def beginsWith : List Char → List Char → Bool
  | [], _ => true
  | _ :: _, [] => false
  | a :: as, b :: bs => a == b && beginsWith as bs

/-- The leading whitespace (spaces and tabs) of a line. -/
def leadingWS (l : List Char) : List Char := l.takeWhile isWS

/-- A line has content when it holds at least one non-whitespace character;
lines without content are ignored when `textwrap.dedent` computes the
common margin, and are emptied in its output. -/
def hasContent (l : List Char) : Bool := l.any (fun c => !(isWS c))

/-- Python `textwrap.dedent` on character lists: compute the longest common
leading whitespace of all lines with content, blank out whitespace-only
lines, and strip that margin from every line that starts with it. -/
def dedentL (cs : List Char) : List Char :=
  let lines := splitLines cs
  let margins := (lines.filter hasContent).map leadingWS
  let margin :=
    match margins with
    | [] => []
    | m :: ms => ms.foldl lcpL m
  joinLines (lines.map (fun l =>
    if hasContent l then
      if beginsWith margin l then l.drop margin.length else l
    else []))

/-- Python function `textwrap.dedent` on strings. -/
def dedent (s : String) : String := ⟨dedentL s.data⟩

/-- The substitution core of Python's `str.format` with empty replacement
fields: each occurrence of the two characters `\x7b\x7d` is replaced by the
next positional argument, left to right; substituted text is not rescanned. -/
def pyFormatAux : List Char → List String → List Char
  | [], _ => []
  | '{' :: '}' :: rest, a :: as => a.data ++ pyFormatAux rest as
  | c :: rest, as => c :: pyFormatAux rest as

/-- Python `template.format(args)` for templates whose replacement
fields are all the empty field, as in this script. -/
def pyFormat (s : String) (args : List String) : String := ⟨pyFormatAux s.data args⟩

/-- The environment: `os.getenv` returns `none` for an absent variable. -/
def Env : Type := String → Option String

/-- The filesystem state the script can observe and change: whether the
directory `<home>/.aws` exists, and the contents of the two target files
when they exist (`none` means the file is absent). -/
structure FS where
  awsDir : Bool
  config : Option String
  creds : Option String
deriving DecidableEq, Repr

/-- A `print(...)` followed by `exit(code)`: the printed diagnostic line
and the process exit status. -/
structure ExitWith where
  code : Nat
  msg : String
deriving DecidableEq, Repr

/-- The observable outcome of a run: the process exit status, the lines
printed to standard output, and the final filesystem state. -/
structure RunResult where
  exitCode : Nat
  stdout : List String
  fs : FS
deriving DecidableEq, Repr

/-- Source function `from_env(key)`: `os.getenv`, then `if not ret` — which is taken both
when the variable is absent (`None`) and when it is the empty string —
prints the diagnostic and exits with status 2; otherwise returns the value. -/
def from_env (env : Env) (key : String) : Except ExitWith String :=
  match env key with
  | none => .error ⟨2, pyFormat "Missing required environment variable: {}" [key]⟩
  | some ret =>
    if ret = "" then
      .error ⟨2, pyFormat "Missing required environment variable: {}" [key]⟩
    else
      .ok ret

/-- Source function `check_no_file_named(path)`: when a file exists at `path`, print the
refusal diagnostic and exit with status 2. -/
def check_no_file_named (fileAt : Bool) (path : String) : Except ExitWith Unit :=
  if fileAt then
    .error ⟨2, pyFormat "AWS config file \x27{}\x27 exists. Refusing to overwrite." [path]⟩
  else
    .ok ()

/-- The config template: the triple-quoted literal from the source (each
line indented by four spaces, a trailing whitespace-only line before the
closing quotes) passed through `textwrap.dedent`. -/
def configTemplate : String :=
  dedent "    [default]\n    endpoint_url = {}\n    region = auto\n    output = json\n    "

/-- The credentials template, likewise from the source literal. -/
def credsTemplate : String :=
  dedent "    [default]\n    aws_access_key_id = {}\n    aws_secret_access_key = {}\n    "

/-- Source function `write_config(path)`: check no file exists at `path`, read
`R2_S3_ENDPOINT`, and return the contents written to `path` (the dedented
template with the endpoint interpolated). -/
def write_config (env : Env) (path : String) (fileAt : Bool) : Except ExitWith String :=
  match check_no_file_named fileAt path with
  | .error e => .error e
  | .ok _ =>
    match from_env env "R2_S3_ENDPOINT" with
    | .error e => .error e
    | .ok endpoint => .ok (pyFormat configTemplate [endpoint])

/-- Source function `write_creds(path)`: read `R2_ACCESS_KEY_ID` then
`R2_SECRET_ACCESS_KEY` and return the contents written to `path`.  Note the
source performs no existence check here. -/
def write_creds (env : Env) : Except ExitWith String :=
  match from_env env "R2_ACCESS_KEY_ID" with
  | .error e => .error e
  | .ok key_id =>
    match from_env env "R2_SECRET_ACCESS_KEY" with
    | .error e => .error e
    | .ok key => .ok (pyFormat credsTemplate [key_id, key])

/-- Source function `main()`: when `<home>/.aws` is absent the source calls
`os.makedirs(aws_dir, exists_ok=True)`; `os.makedirs` has no keyword
parameter named `exists_ok` (the parameter is `exist_ok`), so the call
raises `TypeError`, the exception is uncaught, and the interpreter
terminates with exit status 1, the directory still absent and nothing
printed to standard output.  Otherwise `write_config` runs on
`<home>/.aws/config` and then `write_creds` on `<home>/.aws/credentials`;
an `exit(2)` inside either surfaces as exit status 2 with the single
diagnostic line, leaving the filesystem as it stood at that point. -/
def main (home : String) (env : Env) (fs : FS) : RunResult :=
  let aws_dir := home ++ "/.aws"
  if fs.awsDir then
    let config_file := aws_dir ++ "/config"
    match write_config env config_file fs.config.isSome with
    | .error e => { exitCode := e.code, stdout := [e.msg], fs := fs }
    | .ok configContents =>
      let fs1 : FS := { fs with config := some configContents }
      match write_creds env with
      | .error e => { exitCode := e.code, stdout := [e.msg], fs := fs1 }
      | .ok credsContents =>
        { exitCode := 0, stdout := [], fs := { fs1 with creds := some credsContents } }
  else
    { exitCode := 1, stdout := [], fs := fs }

/-- A required variable counts as missing when it is absent from the
environment or set to the empty string. -/
def envMissing (env : Env) (key : String) : Prop :=
  env key = none ∨ env key = some ""

/-- At least one of the three required variables is missing. -/
def missingOne (env : Env) : Prop :=
  envMissing env "R2_S3_ENDPOINT" ∨ envMissing env "R2_ACCESS_KEY_ID" ∨
    envMissing env "R2_SECRET_ACCESS_KEY"

instance (env : Env) (key : String) : Decidable (envMissing env key) := by
  unfold envMissing; infer_instance

instance (env : Env) : Decidable (missingOne env) := by
  unfold missingOne; infer_instance

/-- A concrete environment with all three required variables set. -/
def envAll : Env := fun k =>
  if k = "R2_S3_ENDPOINT" then some "https://x.r2.cloudflarestorage.com"
  else if k = "R2_ACCESS_KEY_ID" then some "AKIAEXAMPLE"
  else if k = "R2_SECRET_ACCESS_KEY" then some "secret"
  else none

/-- A concrete environment with only the endpoint set. -/
def envEndpointOnly : Env := fun k =>
  if k = "R2_S3_ENDPOINT" then some "https://x.r2.cloudflarestorage.com"
  else none

/-- An environment identical to `envAll` except that an unrelated variable
is also set. -/
def envAllPlus : Env := fun k =>
  if k = "PATH" then some "/usr/bin" else envAll k

/-- An environment whose values contain newlines, brackets and equals
signs, crafted to smuggle extra INI lines into the output files. -/
def envInject : Env := fun k =>
  if k = "R2_S3_ENDPOINT" then some "https://x\n[injected]\nkey = value"
  else if k = "R2_ACCESS_KEY_ID" then some "A=B"
  else if k = "R2_SECRET_ACCESS_KEY" then some "s[c]"
  else none

/-- Dedenting the source literal yields the documented config template. -/
theorem configTemplate_eval :
    configTemplate = "[default]\nendpoint_url = {}\nregion = auto\noutput = json\n" := rfl

/-- Dedenting the source literal yields the documented credentials template. -/
theorem credsTemplate_eval :
    credsTemplate = "[default]\naws_access_key_id = {}\naws_secret_access_key = {}\n" := rfl

/-- Interpolating an arbitrary endpoint into the config template splices the
raw value between the fixed surrounding text. -/
theorem pyFormat_config_eval (e : String) :
    pyFormat configTemplate [e] =
      "[default]\nendpoint_url = " ++ e ++ "\nregion = auto\noutput = json\n" := by
  obtain ⟨l⟩ := e
  rfl

/-- Interpolating arbitrary credentials into the credentials template
splices the raw values between the fixed surrounding text. -/
theorem pyFormat_creds_eval (a s : String) :
    pyFormat credsTemplate [a, s] =
      "[default]\naws_access_key_id = " ++ a ++ "\naws_secret_access_key = " ++ s ++ "\n" := by
  obtain ⟨la⟩ := a
  obtain ⟨ls⟩ := s
  apply String.ext
  simp [pyFormat, pyFormatAux, credsTemplate, dedent, dedentL, splitLines, joinLines,
    leadingWS, hasContent, isWS, lcpL, beginsWith, String.data_append]

/-- The missing-variable diagnostic names the variable. -/
theorem missing_msg_eval (k : String) :
    pyFormat "Missing required environment variable: {}" [k] =
      "Missing required environment variable: " ++ k := by
  obtain ⟨l⟩ := k
  apply String.ext
  simp [pyFormat, pyFormatAux, String.data_append]

/-- The refusal diagnostic names the offending path. -/
theorem refuse_msg_eval (p : String) :
    pyFormat "AWS config file \x27{}\x27 exists. Refusing to overwrite." [p] =
      "AWS config file \x27" ++ p ++ "\x27 exists. Refusing to overwrite." := by
  obtain ⟨l⟩ := p
  rfl

/-- When the environment holds a non-empty value, `from_env` returns it. -/
theorem from_env_ok (env : Env) (k v : String) (h : env k = some v) (hv : v ≠ "") :
    from_env env k = .ok v := by
  simp [from_env, h, hv]

/-- When `<home>/.aws` is absent, the run dies from the `TypeError` raised
by the misspelled `makedirs` keyword: exit status 1, nothing printed, the
filesystem untouched. -/
theorem main_dir_absent (home : String) (env : Env) (fs : FS) (h : fs.awsDir = false) :
    main home env fs = ⟨1, [], fs⟩ := by
  simp [main, h]

/-- When the directory exists and a config file is already present, the run
stops at `check_no_file_named` with exit status 2, printing the refusal
diagnostic for the config path, and changes nothing. -/
theorem main_config_exists (home : String) (env : Env) (fs : FS) (c : String)
    (hdir : fs.awsDir = true) (hcfg : fs.config = some c) :
    main home env fs =
      ⟨2, ["AWS config file \x27" ++ home ++ "/.aws/config\x27 exists. Refusing to overwrite."],
        fs⟩ := by
  simp [main, write_config, check_no_file_named, hdir, hcfg, refuse_msg_eval,
    String.append_assoc]

/-- When the directory exists, no config file is present, and
`R2_S3_ENDPOINT` is absent or empty, the run stops inside `write_config`
with exit status 2 and the missing-variable diagnostic, writing nothing. -/
theorem main_missing_endpoint (home : String) (env : Env) (fs : FS)
    (hdir : fs.awsDir = true) (hcfg : fs.config = none)
    (h : envMissing env "R2_S3_ENDPOINT") :
    main home env fs = ⟨2, ["Missing required environment variable: R2_S3_ENDPOINT"], fs⟩ := by
  rcases h with h | h <;>
    simp [main, write_config, check_no_file_named, from_env, hdir, hcfg, h, missing_msg_eval]

/-- When the run reaches `write_creds` and `R2_ACCESS_KEY_ID` is absent or
empty, it stops with exit status 2 and the missing-variable diagnostic —
but the config file has already been written at that point. -/
theorem main_missing_key_id (home : String) (env : Env) (fs : FS) (E : String)
    (hdir : fs.awsDir = true) (hcfg : fs.config = none)
    (hE : env "R2_S3_ENDPOINT" = some E) (hEne : E ≠ "")
    (h : envMissing env "R2_ACCESS_KEY_ID") :
    main home env fs =
      ⟨2, ["Missing required environment variable: R2_ACCESS_KEY_ID"],
        { fs with config := some (pyFormat configTemplate [E]) }⟩ := by
  rcases h with h | h <;>
    simp [main, write_config, write_creds, check_no_file_named, from_env, hdir, hcfg,
      hE, hEne, h, missing_msg_eval]

/-- When the run reaches the second read in `write_creds` and
`R2_SECRET_ACCESS_KEY` is absent or empty, it stops with exit status 2 and
the missing-variable diagnostic, the config file already written. -/
theorem main_missing_secret (home : String) (env : Env) (fs : FS) (E A : String)
    (hdir : fs.awsDir = true) (hcfg : fs.config = none)
    (hE : env "R2_S3_ENDPOINT" = some E) (hEne : E ≠ "")
    (hA : env "R2_ACCESS_KEY_ID" = some A) (hAne : A ≠ "")
    (h : envMissing env "R2_SECRET_ACCESS_KEY") :
    main home env fs =
      ⟨2, ["Missing required environment variable: R2_SECRET_ACCESS_KEY"],
        { fs with config := some (pyFormat configTemplate [E]) }⟩ := by
  rcases h with h | h <;>
    simp [main, write_config, write_creds, check_no_file_named, from_env, hdir, hcfg,
      hE, hEne, hA, hAne, h, missing_msg_eval]

/-- When the directory exists, no config file is present and all three
variables are set non-empty, the run succeeds: exit status 0, no output,
and both files written with the interpolated templates.  A pre-existing
credentials file is overwritten, its old contents discarded. -/
theorem main_ok (home : String) (env : Env) (fs : FS) (E A S : String)
    (hdir : fs.awsDir = true) (hcfg : fs.config = none)
    (hE : env "R2_S3_ENDPOINT" = some E) (hEne : E ≠ "")
    (hA : env "R2_ACCESS_KEY_ID" = some A) (hAne : A ≠ "")
    (hS : env "R2_SECRET_ACCESS_KEY" = some S) (hSne : S ≠ "") :
    main home env fs =
      ⟨0, [], ⟨true, some (pyFormat configTemplate [E]), some (pyFormat credsTemplate [A, S])⟩⟩ := by
  obtain ⟨ad, cf, cr⟩ := fs
  simp only at hdir hcfg
  subst hdir hcfg
  simp [main, write_config, write_creds, check_no_file_named, from_env,
    hE, hEne, hA, hAne, hS, hSne]

/-- A variable that is not missing is present with a non-empty value. -/
theorem envMissing_elim (env : Env) (k : String) (h : ¬ envMissing env k) :
    ∃ v, env k = some v ∧ v ≠ "" := by
  rcases hk : env k with _ | v
  · exact absurd (Or.inl hk) h
  · refine ⟨v, rfl, fun hv => h (Or.inr ?_)⟩
    rw [hk, hv]

/-- When the directory exists, no config file is present, and some required
variable is missing, the run exits with status 2 printing one diagnostic;
the credentials file is never written, and the config file is untouched
whenever the missing variable is the endpoint. -/
theorem main_missing_var (home : String) (env : Env) (fs : FS)
    (hdir : fs.awsDir = true) (hcfg : fs.config = none) (hm : missingOne env) :
    (main home env fs).exitCode = 2 ∧ (∃ m, (main home env fs).stdout = [m]) ∧
      (main home env fs).fs.creds = fs.creds ∧
      (envMissing env "R2_S3_ENDPOINT" → (main home env fs).fs.config = fs.config) := by
  by_cases hEmiss : envMissing env "R2_S3_ENDPOINT"
  · rw [main_missing_endpoint home env fs hdir hcfg hEmiss]
    exact ⟨rfl, ⟨_, rfl⟩, rfl, fun _ => rfl⟩
  · obtain ⟨E, hE, hEne⟩ := envMissing_elim env "R2_S3_ENDPOINT" hEmiss
    by_cases hAmiss : envMissing env "R2_ACCESS_KEY_ID"
    · rw [main_missing_key_id home env fs E hdir hcfg hE hEne hAmiss]
      exact ⟨rfl, ⟨_, rfl⟩, rfl, fun hmm => absurd hmm hEmiss⟩
    · obtain ⟨A, hA, hAne⟩ := envMissing_elim env "R2_ACCESS_KEY_ID" hAmiss
      have hSmiss : envMissing env "R2_SECRET_ACCESS_KEY" := by
        rcases hm with hm | hm | hm
        · exact absurd hm hEmiss
        · exact absurd hm hAmiss
        · exact hm
      rw [main_missing_secret home env fs E A hdir hcfg hE hEne hA hAne hSmiss]
      exact ⟨rfl, ⟨_, rfl⟩, rfl, fun hmm => absurd hmm hEmiss⟩

/-- Inversion of a successful run: exit status 0 forces the directory to
exist, the config file to be absent, and all three variables to be present
with non-empty values. -/
theorem main_exit0_inv (home : String) (env : Env) (fs : FS)
    (h : (main home env fs).exitCode = 0) :
    fs.awsDir = true ∧ fs.config = none ∧
      ∃ E A S, env "R2_S3_ENDPOINT" = some E ∧ E ≠ "" ∧
        env "R2_ACCESS_KEY_ID" = some A ∧ A ≠ "" ∧
        env "R2_SECRET_ACCESS_KEY" = some S ∧ S ≠ "" := by
  by_cases hdir : fs.awsDir = true
  · rcases hcfg : fs.config with _ | c
    · by_cases hEmiss : envMissing env "R2_S3_ENDPOINT"
      · rw [main_missing_endpoint home env fs hdir hcfg hEmiss] at h
        simp at h
      · obtain ⟨E, hE, hEne⟩ := envMissing_elim env "R2_S3_ENDPOINT" hEmiss
        by_cases hAmiss : envMissing env "R2_ACCESS_KEY_ID"
        · rw [main_missing_key_id home env fs E hdir hcfg hE hEne hAmiss] at h
          simp at h
        · obtain ⟨A, hA, hAne⟩ := envMissing_elim env "R2_ACCESS_KEY_ID" hAmiss
          by_cases hSmiss : envMissing env "R2_SECRET_ACCESS_KEY"
          · rw [main_missing_secret home env fs E A hdir hcfg hE hEne hA hAne hSmiss] at h
            simp at h
          · obtain ⟨S, hS, hSne⟩ := envMissing_elim env "R2_SECRET_ACCESS_KEY" hSmiss
            exact ⟨hdir, rfl, E, A, S, hE, hEne, hA, hAne, hS, hSne⟩
    · rw [main_config_exists home env fs c hdir hcfg] at h
      simp at h
  · rw [main_dir_absent home env fs (by simpa using hdir)] at h
    simp at h

/-- Reading a variable depends only on that variable's value. -/
theorem from_env_congr (env1 env2 : Env) (k : String) (h : env1 k = env2 k) :
    from_env env1 k = from_env env2 k := by
  unfold from_env
  rw [h]

/-- Writing the config depends on the environment only through the
endpoint variable. -/
theorem write_config_congr (env1 env2 : Env) (path : String) (b : Bool)
    (h : env1 "R2_S3_ENDPOINT" = env2 "R2_S3_ENDPOINT") :
    write_config env1 path b = write_config env2 path b := by
  unfold write_config
  rw [from_env_congr env1 env2 _ h]

/-- Writing the credentials depends on the environment only through the two
credential variables. -/
theorem write_creds_congr (env1 env2 : Env)
    (h2 : env1 "R2_ACCESS_KEY_ID" = env2 "R2_ACCESS_KEY_ID")
    (h3 : env1 "R2_SECRET_ACCESS_KEY" = env2 "R2_SECRET_ACCESS_KEY") :
    write_creds env1 = write_creds env2 := by
  unfold write_creds
  rw [from_env_congr env1 env2 _ h2, from_env_congr env1 env2 _ h3]

/-- C1 counterexample: with all variables set, no config file, but a
pre-existing credentials file, the run exits 0 — not 2 — and replaces the
pre-existing credentials contents, because `write_creds` performs no
existence check.  This refutes the claim for the credentials target path. -/
theorem C1_counterexample :
    (main "/home/ci" envAll ⟨true, none, some "keepme"⟩).exitCode = 0 ∧
    (main "/home/ci" envAll ⟨true, none, some "keepme"⟩).fs.creds =
      some "[default]\naws_access_key_id = AKIAEXAMPLE\naws_secret_access_key = secret\n" :=
  ⟨rfl, rfl⟩

/-- C1 (amended): only the config target path is protected: if a file
already exists at `<home>/.aws/config`, the script aborts with exit status
2 and leaves the whole filesystem (both pre-existing files) unmodified; a
pre-existing credentials file is not checked and is overwritten when the
run reaches `write_creds`. -/
theorem C1_config_protected (home : String) (env : Env) (fs : FS)
    (hdir : fs.awsDir = true) (hc : fs.config.isSome = true) :
    (main home env fs).exitCode = 2 ∧ (main home env fs).fs = fs := by
  obtain ⟨c, hcfg⟩ := Option.isSome_iff_exists.mp hc
  rw [main_config_exists home env fs c hdir hcfg]
  exact ⟨rfl, rfl⟩

/-- C1 witness: a concrete run with a pre-existing config file exits 2 and
changes nothing. -/
theorem C1_config_protected_witness :
    (main "/home/w1" envAll ⟨true, some "operator config", none⟩).exitCode = 2 ∧
    (main "/home/w1" envAll ⟨true, some "operator config", none⟩).fs =
      ⟨true, some "operator config", none⟩ :=
  C1_config_protected "/home/w1" envAll ⟨true, some "operator config", none⟩ rfl rfl

/-- C2 (code bug): when `<home>/.aws` is absent, the script does not create
it and proceed — it dies.  The source calls `os.makedirs(aws_dir,
exists_ok=True)`, but `os.makedirs` has no parameter named `exists_ok`
(the parameter is `exist_ok`), so the call raises `TypeError`; the
exception is uncaught and the interpreter exits with status 1, the
directory still absent, no file written and nothing printed. -/
theorem C2_makedirs_typeerror :
    main "/home/ci" envAll ⟨false, none, none⟩ = ⟨1, [], ⟨false, none, none⟩⟩ := rfl

/-- C3 counterexample: with `R2_S3_ENDPOINT` set but `R2_ACCESS_KEY_ID`
missing, the run exits 2 yet the config file has already been written —
refuting the claim that no files at all are written. -/
theorem C3_counterexample :
    (main "/home/ci" envEndpointOnly ⟨true, none, none⟩).exitCode = 2 ∧
    (main "/home/ci" envEndpointOnly ⟨true, none, none⟩).fs.config =
      some "[default]\nendpoint_url = https://x.r2.cloudflarestorage.com\nregion = auto\noutput = json\n" :=
  ⟨rfl, rfl⟩

/-- C3 (amended): given the `<home>/.aws` directory exists, when at least
one required variable is unset or empty the script exits with status 2 and
never writes the credentials file; the config file is also untouched
whenever `R2_S3_ENDPOINT` is among the missing variables (but when only a
credentials variable is missing, the config file is written before the
exit). -/
theorem C3_missing_var_behavior (home : String) (env : Env) (fs : FS)
    (hdir : fs.awsDir = true) (hm : missingOne env) :
    (main home env fs).exitCode = 2 ∧ (main home env fs).fs.creds = fs.creds ∧
      (envMissing env "R2_S3_ENDPOINT" → (main home env fs).fs.config = fs.config) := by
  rcases hcfg : fs.config with _ | c
  · obtain ⟨h1, _, h3, h4⟩ := main_missing_var home env fs hdir hcfg hm
    exact ⟨h1, h3, fun hmm => (h4 hmm).trans hcfg⟩
  · rw [main_config_exists home env fs c hdir hcfg]
    exact ⟨rfl, rfl, fun _ => hcfg⟩

/-- C3 witness: a concrete run with a missing credentials variable exits 2
and leaves a pre-existing credentials file unwritten. -/
theorem C3_missing_var_behavior_witness :
    (main "/home/w3" envEndpointOnly ⟨true, none, some "existing creds"⟩).exitCode = 2 ∧
    (main "/home/w3" envEndpointOnly ⟨true, none, some "existing creds"⟩).fs.creds =
      some "existing creds" := by
  have h := C3_missing_var_behavior "/home/w3" envEndpointOnly
    ⟨true, none, some "existing creds"⟩ rfl (Or.inr (Or.inl (Or.inl rfl)))
  exact ⟨h.1, h.2.1⟩

/-- C4 counterexample: with all three variables set non-empty and neither
target file pre-existing, but the `<home>/.aws` directory absent, the run
does not exit 0 and produces no files: the misspelled `makedirs` keyword
kills the process first. -/
theorem C4_counterexample :
    (main "/home/w4" envAll ⟨false, none, none⟩).exitCode ≠ 0 ∧
    (main "/home/w4" envAll ⟨false, none, none⟩).fs.config = none ∧
    (main "/home/w4" envAll ⟨false, none, none⟩).fs.creds = none :=
  ⟨by decide, rfl, rfl⟩

/-- C4 (amended): with all three variables set non-empty, neither target
file pre-existing, and — as the directory-creation bug forces — the
directory `<home>/.aws` already existing, the run exits 0 with no output
and produces exactly the two files with the documented literal contents. -/
theorem C4_success (home : String) (env : Env) (fs : FS) (E A S : String)
    (hdir : fs.awsDir = true) (hcfg : fs.config = none) (_hcr : fs.creds = none)
    (hE : env "R2_S3_ENDPOINT" = some E) (hEne : E ≠ "")
    (hA : env "R2_ACCESS_KEY_ID" = some A) (hAne : A ≠ "")
    (hS : env "R2_SECRET_ACCESS_KEY" = some S) (hSne : S ≠ "") :
    main home env fs =
      ⟨0, [], ⟨true,
        some ("[default]\nendpoint_url = " ++ E ++ "\nregion = auto\noutput = json\n"),
        some ("[default]\naws_access_key_id = " ++ A ++ "\naws_secret_access_key = " ++ S ++ "\n")⟩⟩ := by
  rw [main_ok home env fs E A S hdir hcfg hE hEne hA hAne hS hSne,
    pyFormat_config_eval, pyFormat_creds_eval]

/-- C4 witness: a concrete all-good run produces the two documented files
and exits 0. -/
theorem C4_success_witness :
    main "/home/w4b" envAll ⟨true, none, none⟩ =
      ⟨0, [], ⟨true,
        some "[default]\nendpoint_url = https://x.r2.cloudflarestorage.com\nregion = auto\noutput = json\n",
        some "[default]\naws_access_key_id = AKIAEXAMPLE\naws_secret_access_key = secret\n"⟩⟩ := by
  have h := C4_success "/home/w4b" envAll ⟨true, none, none⟩
    "https://x.r2.cloudflarestorage.com" "AKIAEXAMPLE" "secret"
    rfl rfl rfl rfl (by decide) rfl (by decide) rfl (by decide)
  exact h.trans rfl

/-- C5 counterexample: with the `<home>/.aws` directory absent the process
terminates with an exit status that is neither 0 nor 2, and the failure is
not reported by any printed diagnostic. -/
theorem C5_counterexample :
    (main "/home/w5" envAll ⟨false, none, none⟩).exitCode ≠ 0 ∧
    (main "/home/w5" envAll ⟨false, none, none⟩).exitCode ≠ 2 ∧
    (main "/home/w5" envAll ⟨false, none, none⟩).stdout = [] :=
  ⟨by decide, by decide, rfl⟩

/-- C5 (amended): provided the `<home>/.aws` directory exists, the exit
status is 0 on success (no config file pre-existing and no required
variable missing, with nothing printed) and 2 in exactly the two failure
cases — a pre-existing config file or a missing required variable — each
reported by exactly one printed diagnostic line before exiting. -/
theorem C5_exit_codes (home : String) (env : Env) (fs : FS) (hdir : fs.awsDir = true) :
    ((main home env fs).exitCode = 0 ∧ (main home env fs).stdout = [] ∧
        fs.config = none ∧ ¬ missingOne env) ∨
      ((main home env fs).exitCode = 2 ∧ (∃ m, (main home env fs).stdout = [m]) ∧
        (fs.config.isSome = true ∨ missingOne env)) := by
  rcases hcfg : fs.config with _ | c
  · by_cases hm : missingOne env
    · right
      obtain ⟨h1, h2, _, _⟩ := main_missing_var home env fs hdir hcfg hm
      exact ⟨h1, h2, Or.inr hm⟩
    · left
      have hEmiss : ¬ envMissing env "R2_S3_ENDPOINT" := fun hh => hm (Or.inl hh)
      have hAmiss : ¬ envMissing env "R2_ACCESS_KEY_ID" := fun hh => hm (Or.inr (Or.inl hh))
      have hSmiss : ¬ envMissing env "R2_SECRET_ACCESS_KEY" := fun hh => hm (Or.inr (Or.inr hh))
      obtain ⟨E, hE, hEne⟩ := envMissing_elim env _ hEmiss
      obtain ⟨A, hA, hAne⟩ := envMissing_elim env _ hAmiss
      obtain ⟨S, hS, hSne⟩ := envMissing_elim env _ hSmiss
      rw [main_ok home env fs E A S hdir hcfg hE hEne hA hAne hS hSne]
      exact ⟨rfl, rfl, rfl, hm⟩
  · right
    rw [main_config_exists home env fs c hdir hcfg]
    exact ⟨rfl, ⟨_, rfl⟩, Or.inl rfl⟩

/-- C5 witness: a concrete run with the directory present exits 0 or 2. -/
theorem C5_exit_codes_witness :
    (main "/home/w5b" envAll ⟨true, none, none⟩).exitCode = 0 ∨
    (main "/home/w5b" envAll ⟨true, none, none⟩).exitCode = 2 := by
  rcases C5_exit_codes "/home/w5b" envAll ⟨true, none, none⟩ rfl with h | h
  · exact Or.inl h.1
  · exact Or.inr h.1

/-- C6: on a successful run the config file consists of the single section
header `[default]` followed by exactly the lines `endpoint_url = <value of
R2_S3_ENDPOINT>`, `region = auto`, `output = json`, and the credentials
file of `[default]` followed by exactly `aws_access_key_id = <value of
R2_ACCESS_KEY_ID>` and `aws_secret_access_key = <value of
R2_SECRET_ACCESS_KEY>`. -/
theorem C6_documented_contents (home : String) (env : Env) (fs : FS)
    (h : (main home env fs).exitCode = 0) :
    ∃ E A S, env "R2_S3_ENDPOINT" = some E ∧ env "R2_ACCESS_KEY_ID" = some A ∧
      env "R2_SECRET_ACCESS_KEY" = some S ∧
      (main home env fs).fs.config =
        some ("[default]\nendpoint_url = " ++ E ++ "\nregion = auto\noutput = json\n") ∧
      (main home env fs).fs.creds =
        some ("[default]\naws_access_key_id = " ++ A ++ "\naws_secret_access_key = " ++ S ++ "\n") := by
  obtain ⟨hdir, hcfg, E, A, S, hE, hEne, hA, hAne, hS, hSne⟩ := main_exit0_inv home env fs h
  refine ⟨E, A, S, hE, hA, hS, ?_, ?_⟩ <;>
    rw [main_ok home env fs E A S hdir hcfg hE hEne hA hAne hS hSne] <;>
    simp [pyFormat_config_eval, pyFormat_creds_eval]

/-- C6 witness: with the spec's example values the files contain the
interpolated lines. -/
theorem C6_documented_contents_witness :
    (main "/home/w6" envAll ⟨true, none, none⟩).fs.config =
      some "[default]\nendpoint_url = https://x.r2.cloudflarestorage.com\nregion = auto\noutput = json\n" ∧
    (main "/home/w6" envAll ⟨true, none, none⟩).fs.creds =
      some "[default]\naws_access_key_id = AKIAEXAMPLE\naws_secret_access_key = secret\n" := by
  obtain ⟨E, A, S, hE, hA, hS, hc, hcr⟩ :=
    C6_documented_contents "/home/w6" envAll ⟨true, none, none⟩ rfl
  obtain rfl : E = "https://x.r2.cloudflarestorage.com" := (Option.some.inj hE).symm
  obtain rfl : A = "AKIAEXAMPLE" := (Option.some.inj hA).symm
  obtain rfl : S = "secret" := (Option.some.inj hS).symm
  exact ⟨hc.trans rfl, hcr.trans rfl⟩

/-- C7: for every variable, an empty-string value is treated exactly like
an absent variable: in both cases `from_env` produces the same diagnostic
line naming the variable and the same non-zero exit status 2. -/
theorem C7_empty_like_absent (env : Env) (k : String)
    (h : env k = none ∨ env k = some "") :
    from_env env k = .error ⟨2, "Missing required environment variable: " ++ k⟩ := by
  rcases h with h | h <;> simp [from_env, h, missing_msg_eval]

/-- C7 witness: a concrete environment mapping the variable to the empty
string yields the diagnostic naming the variable and exit status 2. -/
theorem C7_empty_like_absent_witness :
    from_env (fun j => if j = "R2_ACCESS_KEY_ID" then some "" else none) "R2_ACCESS_KEY_ID" =
      .error ⟨2, "Missing required environment variable: R2_ACCESS_KEY_ID"⟩ := by
  have h := C7_empty_like_absent (fun j => if j = "R2_ACCESS_KEY_ID" then some "" else none)
    "R2_ACCESS_KEY_ID" (Or.inr (by decide))
  exact h.trans rfl

/-- C8: when the config file already exists, the run stops with exit
status 2 and the file-exists diagnostic, whatever the environment holds —
the result is the same for every environment, so a simultaneously missing
required variable is never the diagnosed error.  (A file inside
`<home>/.aws` entails that the directory exists, hence the hypothesis.) -/
theorem C8_fileexists_precedence (home : String) (env : Env) (fs : FS)
    (hdir : fs.awsDir = true) (hc : fs.config.isSome = true) :
    main home env fs =
      ⟨2, ["AWS config file \x27" ++ home ++ "/.aws/config\x27 exists. Refusing to overwrite."],
        fs⟩ := by
  obtain ⟨c, hcfg⟩ := Option.isSome_iff_exists.mp hc
  exact main_config_exists home env fs c hdir hcfg

/-- C8 witness: even with every required variable missing, a pre-existing
config file is what gets diagnosed. -/
theorem C8_fileexists_precedence_witness :
    main "/home/w8" (fun _ => none) ⟨true, some "x", none⟩ =
      ⟨2, ["AWS config file \x27/home/w8/.aws/config\x27 exists. Refusing to overwrite."],
        ⟨true, some "x", none⟩⟩ := by
  have h := C8_fileexists_precedence "/home/w8" (fun _ => none) ⟨true, some "x", none⟩ rfl rfl
  exact h.trans rfl

/-- C9: environment values are interpolated verbatim, with no validation,
quoting or escaping: for every non-empty value — including values holding
newlines, brackets or equals signs — the contents written are exactly the
fixed template with the raw value spliced in. -/
theorem C9_verbatim_interpolation (env : Env) (path : String) (e a s : String)
    (hE : env "R2_S3_ENDPOINT" = some e) (hEne : e ≠ "")
    (hA : env "R2_ACCESS_KEY_ID" = some a) (hAne : a ≠ "")
    (hS : env "R2_SECRET_ACCESS_KEY" = some s) (hSne : s ≠ "") :
    write_config env path false =
      .ok ("[default]\nendpoint_url = " ++ e ++ "\nregion = auto\noutput = json\n") ∧
    write_creds env =
      .ok ("[default]\naws_access_key_id = " ++ a ++ "\naws_secret_access_key = " ++ s ++ "\n") := by
  constructor
  · simp [write_config, check_no_file_named, from_env, hE, hEne, pyFormat_config_eval]
  · simp [write_creds, from_env, hA, hAne, hS, hSne, pyFormat_creds_eval]

/-- C9 witness: a crafted endpoint value smuggles an extra INI section into
the config file, and key values with equals signs and brackets pass
through unescaped. -/
theorem C9_verbatim_interpolation_witness :
    write_config envInject "/home/w9/.aws/config" false =
      .ok "[default]\nendpoint_url = https://x\n[injected]\nkey = value\nregion = auto\noutput = json\n" ∧
    write_creds envInject =
      .ok "[default]\naws_access_key_id = A=B\naws_secret_access_key = s[c]\n" := by
  have h := C9_verbatim_interpolation envInject "/home/w9/.aws/config"
    "https://x\n[injected]\nkey = value" "A=B" "s[c]"
    rfl (by decide) rfl (by decide) rfl (by decide)
  exact ⟨h.1.trans rfl, h.2.trans rfl⟩

/-- C10: the run is a pure function of the three required variables and the
initial filesystem state: two environments agreeing on those variables
produce identical exit statuses, identical printed output and identical
file contents on the same initial filesystem — no other input influences
the result. -/
theorem C10_deterministic (home : String) (env1 env2 : Env) (fs : FS)
    (h1 : env1 "R2_S3_ENDPOINT" = env2 "R2_S3_ENDPOINT")
    (h2 : env1 "R2_ACCESS_KEY_ID" = env2 "R2_ACCESS_KEY_ID")
    (h3 : env1 "R2_SECRET_ACCESS_KEY" = env2 "R2_SECRET_ACCESS_KEY") :
    main home env1 fs = main home env2 fs := by
  simp only [main]
  rw [write_config_congr env1 env2 _ _ h1, write_creds_congr env1 env2 h2 h3]

/-- C10 witness: adding an unrelated variable to the environment changes
nothing about the run. -/
theorem C10_deterministic_witness :
    main "/home/w10" envAll ⟨true, none, none⟩ =
      main "/home/w10" envAllPlus ⟨true, none, none⟩ :=
  C10_deterministic "/home/w10" envAll envAllPlus ⟨true, none, none⟩ rfl rfl rfl

end ConfigureAwsCli
